import Mathlib

/-!
Shallow embedding of the meeting-assistant pipeline (audio segmentation,
sequential transcription, duration probing, token/cost estimation and the
summarization client) together with proofs about the claims of its
specification.  External libraries (tiktoken, ffmpeg, pydub, the OpenAI
backends, the filesystem) are modelled as explicit environments passed to
the embedded functions; the control flow of each embedded function is a
direct translation of the corresponding Python function.
-/

namespace MeetingAssistant

/-- Errors raised by the embedded Python code.  Each constructor corresponds
to one of the Python exception classes that the source raises. -/
inductive PyError where
  | fileNotFoundError (msg : String)
  | valueError (msg : String)
  | openAIError (msg : String)
deriving DecidableEq

/-- The message carried by an exception, Python's `str(e)`. -/
def pyErrStr : PyError → String
  | .fileNotFoundError m => m
  | .valueError m => m
  | .openAIError m => m

/-! ### ASCII lowercasing (Python's `str.lower` on the characters the code
compares: extensions are ASCII) -/

/-- The 26 uppercase/lowercase ASCII letter pairs. -/
def lowerPairs : List (Char × Char) :=
  [('A', 'a'), ('B', 'b'), ('C', 'c'), ('D', 'd'), ('E', 'e'), ('F', 'f'),
   ('G', 'g'), ('H', 'h'), ('I', 'i'), ('J', 'j'), ('K', 'k'), ('L', 'l'),
   ('M', 'm'), ('N', 'n'), ('O', 'o'), ('P', 'p'), ('Q', 'q'), ('R', 'r'),
   ('S', 's'), ('T', 't'), ('U', 'u'), ('V', 'v'), ('W', 'w'), ('X', 'x'),
   ('Y', 'y'), ('Z', 'z')]

/-- Lowercase one character: an uppercase ASCII letter is replaced by its
lowercase partner, every other character is left unchanged. -/
def lowerChar (c : Char) : Char :=
  (((lowerPairs.find? (fun q => q.1 = c)).map Prod.snd).getD c)

/-- Lowercase a string character by character (`str.lower`). -/
def lowerString (s : String) : String := ⟨s.data.map lowerChar⟩

/-! ### `pathlib.Path` name / suffix / stem, on character lists -/

/-- Drop trailing `/` characters (pathlib ignores a trailing slash). -/
def stripTrailingSlashes (l : List Char) : List Char :=
  (l.reverse.dropWhile (fun c => c = '/')).reverse

/-- The characters after the last `/`, i.e. the final path component. -/
def afterLastSlash (l : List Char) : List Char :=
  l.foldl (fun acc c => if c = '/' then [] else acc ++ [c]) []

/-- `Path(p).name` as a character list. -/
def pathNameChars (l : List Char) : List Char :=
  afterLastSlash (stripTrailingSlashes l)

/-- `Path(p).suffix` on the final component: the substring from the last
dot, provided that dot is neither the first nor the last character of the
name; otherwise the empty suffix. -/
def pathSuffixChars (name : List Char) : List Char :=
  if '.' ∈ name then
    if ((name.reverse.takeWhile (fun c => c ≠ '.')).reverse).length = 0 then []
    else if name.length
        = ((name.reverse.takeWhile (fun c => c ≠ '.')).reverse).length + 1 then
      []
    else '.' :: (name.reverse.takeWhile (fun c => c ≠ '.')).reverse
  else []

/-- `Path(p).suffix` as a string. -/
def pathSuffix (p : String) : String :=
  ⟨pathSuffixChars (pathNameChars p.data)⟩

/-- `Path(p).stem`: the final component with its suffix removed. -/
def pathStem (p : String) : String :=
  let name := pathNameChars p.data
  ⟨name.take (name.length - (pathSuffixChars name).length)⟩

/-! ### token_cost.py -/

/-- One entry of the pricing table: price per 1K input tokens and per 1K
output tokens, in dollars (exact rationals). -/
structure Price where
  input : ℚ
  output : ℚ
deriving DecidableEq

/-- The `MODEL_PRICES` table of `token_cost.py`: `gpt-4` at 0.03/0.06 and
`gpt-3.5-turbo` at 0.0015/0.002 per 1K tokens; every other model is absent. -/
def MODEL_PRICES (model : String) : Option Price :=
  if model = "gpt-4" then some ⟨3/100, 6/100⟩
  else if model = "gpt-3.5-turbo" then some ⟨15/10000, 2/1000⟩
  else none

/-- Environment modelling the external tiktoken library:
`encoding_for_model` returns the tokenizer for a model, or nothing (the
library raises `KeyError`) when the model has no registered encoding.  A
tokenizer turns a text into its list of tokens. -/
structure TiktokenEnv where
  encoding_for_model : String → Option (String → List Nat)

/-- `get_token_count` of `token_cost.py`: number of tokens of a text under
the model's tokenizer; raises `ValueError` when tiktoken knows no encoding
for the model. -/
def get_token_count (env : TiktokenEnv) (text : String) (model : String) :
    Except PyError Nat :=
  match env.encoding_for_model model with
  | some encoding => .ok (encoding text).length
  | none => .error (.valueError ("Modelo no soportado: " ++ model))

/-- The message of the `ValueError` raised by `calculate_token_cost` for a
model that has no pricing entry. -/
def unsupportedModelMessage (model : String) : String :=
  "No se encontraron precios para el modelo " ++ model ++
    ". Modelos soportados: ['gpt-4', 'gpt-3.5-turbo']"

/-- `calculate_token_cost` of `token_cost.py`: first rejects models without
a pricing entry, then tokenizes the input and returns
`(input_tokens/1000)*input_price + (max_output_tokens/1000)*output_price`. -/
def calculate_token_cost (env : TiktokenEnv) (input_text : String)
    (max_output_tokens : Nat) (model : String) : Except PyError ℚ :=
  match MODEL_PRICES model with
  | none => .error (.valueError (unsupportedModelMessage model))
  | some prices =>
    match get_token_count env input_text model with
    | .error e => .error e
    | .ok input_tokens =>
      .ok ((input_tokens : ℚ) / 1000 * prices.input +
           (max_output_tokens : ℚ) / 1000 * prices.output)

/-- A trivial tiktoken environment with no registered encodings. -/
def emptyTokEnv : TiktokenEnv := ⟨fun _ => none⟩

/-- A possible tokenizer behaviour for the supported models: one token per
space-separated word.  The tokenizer of the external tiktoken library is a
black box from the point of view of the source, so the embedding
quantifies over it; this environment exhibits one admissible behaviour in
which the token count of a text is not monotone in its character length
(byte-pair encodings share this trait: a long common word can be fewer
tokens than a short run of rare characters). -/
def wordTokEnv : TiktokenEnv :=
  ⟨fun model =>
    if model = "gpt-4" ∨ model = "gpt-3.5-turbo" then
      some (fun s => 0 :: (s.data.filter (fun c => c = ' ')).map (fun _ => 0))
    else none⟩

/-! ### audio_divide.py -/

/-- Python's `range(start, stop, step)` for a positive step: the indices
`start, start+step, start+2*step, ...` strictly below `stop`.  (For a
non-positive step the list is empty; `split_audio` never reaches the loop
with step 0, see below.) -/
def pyRange (start stop step : Nat) : List Nat :=
  if _h : 0 < step ∧ start < stop then start :: pyRange (start + step) stop step
  else []
termination_by stop - start
decreasing_by omega

/-- Result of `split_audio`: the returned list of paths and the segment
files exported as a side effect, each with the audio length (in
milliseconds) that was written to it. -/
structure SplitResult where
  segments : List String
  exported : List (String × Nat)

/-- The exported name of a segment: `{output}/{stem}_part{idx}.mp3`. -/
def segmentPath (outputDir stem : String) (idx : Nat) : String :=
  outputDir ++ "/" ++ stem ++ "_part" ++ toString idx ++ ".mp3"

/-- Environment for `split_audio`: file existence, and pydub's
`AudioSegment.from_file`, which yields the audio length in milliseconds or
fails with a message. -/
structure AudioEnv where
  pathExists : String → Bool
  load : String → Except String Nat

/-- `split_audio` of `audio_divide.py`.  Missing file raises
`FileNotFoundError`; a decode failure is wrapped as `ValueError`.  If the
audio is at most `max_length_minutes * 60 * 1000` ms long the original
path is returned unchanged and nothing is exported; otherwise the loop
`for i in range(0, len(audio), max_length_ms)` slices `audio[i:i+max_length_ms]`
(of length `min max_length_ms (len - i)`), exports it as
`{stem}_part{len(segments)+1}.mp3` and collects the paths.  (With
`max_length_ms = 0` the Python code divides by zero while computing
`total_segments`; the `ZeroDivisionError` is wrapped as `ValueError`.) -/
def split_audio (env : AudioEnv) (audio_path outputDir : String)
    (max_length_minutes : Nat) : Except PyError SplitResult :=
  if env.pathExists audio_path = false then
    .error (.fileNotFoundError ("No se encontró el archivo: " ++ audio_path))
  else
    match env.load audio_path with
    | .error msg => .error (.valueError ("Error al procesar el audio: " ++ msg))
    | .ok audioLen =>
      let max_length_ms := max_length_minutes * 60 * 1000
      if audioLen ≤ max_length_ms then .ok ⟨[audio_path], []⟩
      else if max_length_ms = 0 then
        .error (.valueError
          "Error al procesar el audio: integer division or modulo by zero")
      else
        let pieces := (pyRange 0 audioLen max_length_ms).enum.map
          (fun p => (segmentPath outputDir (pathStem audio_path) (p.1 + 1),
                     min max_length_ms (audioLen - p.2)))
        .ok ⟨pieces.map Prod.fst, pieces⟩

/-- Environment for `get_audio_duration`: file existence, `ffmpeg.probe`
(stream metadata, duration in seconds, failing with `ffmpeg.Error`) and
pydub's decoder (audio length in milliseconds). -/
structure DurationEnv where
  pathExists : String → Bool
  probe : String → Except String ℚ
  fromFile : String → Except String Nat

/-- `get_audio_duration` of `audio_divide.py`: missing file raises
`FileNotFoundError`; the primary ffmpeg metadata probe yields
seconds / 60; on `ffmpeg.Error` the fallback decodes the asset with pydub
and yields milliseconds / (1000*60); if the fallback also fails, the error
is wrapped as `ValueError`. -/
def get_audio_duration (env : DurationEnv) (audio_path : String) :
    Except PyError ℚ :=
  if env.pathExists audio_path = false then
    .error (.fileNotFoundError ("No se encontró el archivo: " ++ audio_path))
  else
    match env.probe audio_path with
    | .ok durationSec => .ok (durationSec / 60)
    | .error _ =>
      match env.fromFile audio_path with
      | .ok ms => .ok ((ms : ℚ) / (1000 * 60))
      | .error msg =>
        .error (.valueError ("Error al obtener la duración del audio: " ++ msg))

/-! ### llm.py -/

/-- One chat message, `{role, content}`. -/
structure Message where
  role : String
  content : String
deriving DecidableEq

/-- The part of the chat-completion response the pipeline consumes. -/
structure ChatResponse where
  content : String
deriving DecidableEq

/-- Calls `chat_completion` makes against external code, in order. -/
inductive LlmEvent where
  | estimate
  | create
deriving DecidableEq

/-- Environment for `chat_completion`: the token/cost estimator applied to
`(prompt, max_tokens)` (the source calls `calculate_token_cost` here), and
the `openai.ChatCompletion.create` backend, which receives the message
list and the token ceiling. -/
structure ChatEnv where
  estimate : String → Nat → Except PyError ℚ
  create : List Message → Nat → Except String ChatResponse

/-- `chat_completion` of `llm.py`: builds the optional-system + user
message list, then inside a single `try` block first computes the cost
estimate and then dispatches the request; any exception in that block —
including one raised by the estimator — is wrapped as
`openai.error.OpenAIError` and re-raised.  The second component records
which external calls were made, in order. -/
def chat_completion (env : ChatEnv) (prompt : String)
    (system_prompt : Option String) (max_tokens : Nat) :
    Except PyError ChatResponse × List LlmEvent :=
  let messages :=
    (match system_prompt with
     | some s => [Message.mk "system" s]
     | none => []) ++ [Message.mk "user" prompt]
  match env.estimate prompt max_tokens with
  | .error e =>
    (.error (.openAIError ("Error en la generación de texto: " ++ pyErrStr e)),
     [.estimate])
  | .ok _cost =>
    match env.create messages max_tokens with
    | .error msg =>
      (.error (.openAIError ("Error en la generación de texto: " ++ msg)),
       [.estimate, .create])
    | .ok resp => (.ok resp, [.estimate, .create])

/-! ### transcriptions.py -/

/-- The audio extension allow-list of `transcriptions.py`. -/
def SUPPORTED_AUDIO_EXTENSIONS : List String :=
  [".mp3", ".wav", ".m4a", ".aac", ".ogg", ".flac"]

/-- The video extension allow-list of `transcriptions.py`. -/
def SUPPORTED_VIDEO_EXTENSIONS : List String :=
  [".mp4", ".avi", ".mkv", ".mov", ".wmv", ".flv"]

/-- `is_audio_file`: the lowercased suffix is in the audio allow-list. -/
def is_audio_file (file_path : String) : Bool :=
  SUPPORTED_AUDIO_EXTENSIONS.contains (lowerString (pathSuffix file_path))

/-- `is_video_file`: the lowercased suffix is in the video allow-list. -/
def is_video_file (file_path : String) : Bool :=
  SUPPORTED_VIDEO_EXTENSIONS.contains (lowerString (pathSuffix file_path))

/-- Environment for `transcribe_audio`: the filesystem check and the four
collaborators it calls (`convert_to_audio`, `get_audio_duration`,
`split_audio` returning segment paths, and `transcribe_with_whisper`). -/
structure PipelineEnv where
  pathExists : String → Bool
  convert : String → Except PyError String
  duration : String → Except PyError ℚ
  split : String → Nat → Except PyError (List String)
  whisper : String → Option String → Except PyError String

/-- The fragment produced for one segment in `_transcribe_segments`: the
backend's text on success, the empty string when the backend raises. -/
def fragmentOf (env : PipelineEnv) (language : Option String)
    (segment : String) : String :=
  match env.whisper segment language with
  | .ok text => text
  | .error _ => ""

/-- `_transcribe_segments` of `transcriptions.py`: transcribe each segment
in order, recording an empty fragment on a per-segment failure, and join
the fragments with newline separators. -/
def _transcribe_segments (env : PipelineEnv) (segments : List String)
    (language : Option String) : String :=
  String.intercalate "\n" (segments.map (fragmentOf env language))

/-- Calls `transcribe_audio` makes against external backends, in order. -/
inductive CallEvent where
  | convert (path : String)
  | probe (path : String)
  | split (path : String)
  | whisper (path : String)
deriving DecidableEq

/-- The `ValueError` message for a path whose extension is in neither
allow-list, naming both supported extension sets. -/
def unsupportedFormatMessage : String :=
  "Formato no soportado. Formatos soportados: Audio: " ++
    String.intercalate ", " SUPPORTED_AUDIO_EXTENSIONS ++
    ", Video: " ++ String.intercalate ", " SUPPORTED_VIDEO_EXTENSIONS

/-- `transcribe_audio` of `transcriptions.py`: existence check, extension
classification, video→audio conversion, duration probe; if the duration
exceeds `MAX_AUDIO_LENGTH_MINUTES` the audio is split and the segments are
transcribed with per-segment failure recovery, otherwise the whole asset
is transcribed once and a backend error is re-raised as is.  The second
component records the external calls made, in order. -/
def transcribe_audio (env : PipelineEnv) (maxLenMinutes : Nat)
    (audio_path : String) (language : Option String) :
    Except PyError String × List CallEvent :=
  if env.pathExists audio_path = false then
    (.error (.fileNotFoundError ("No se encontró el archivo: " ++ audio_path)), [])
  else if !(is_audio_file audio_path || is_video_file audio_path) then
    (.error (.valueError unsupportedFormatMessage), [])
  else
    let conv : Except PyError String × List CallEvent :=
      if is_video_file audio_path then
        match env.convert audio_path with
        | .ok p => (.ok p, [.convert audio_path])
        | .error e => (.error e, [.convert audio_path])
      else (.ok audio_path, [])
    match conv with
    | (.error e, tr) => (.error e, tr)
    | (.ok path, tr) =>
      match env.duration path with
      | .error e => (.error e, tr ++ [.probe path])
      | .ok d =>
        if (maxLenMinutes : ℚ) < d then
          match env.split path maxLenMinutes with
          | .error e => (.error e, tr ++ [.probe path, .split path])
          | .ok segments =>
            (.ok (_transcribe_segments env segments language),
             tr ++ [.probe path, .split path] ++ segments.map CallEvent.whisper)
        else
          match env.whisper path language with
          | .ok t => (.ok t, tr ++ [.probe path, .whisper path])
          | .error e => (.error e, tr ++ [.probe path, .whisper path])

/-! ### Concrete environments used by the witnesses -/

/-- An audio environment whose only asset is 125 minutes (7 500 000 ms). -/
def audioEnv125 : AudioEnv := ⟨fun _ => true, fun _ => .ok 7500000⟩

/-- An audio environment whose only asset is 5 minutes (300 000 ms). -/
def audioEnvShort : AudioEnv := ⟨fun _ => true, fun _ => .ok 300000⟩

/-- A duration environment where the ffmpeg probe fails and the pydub
fallback reads a 90 000 ms asset. -/
def durEnvFallback : DurationEnv :=
  ⟨fun _ => true, fun _ => .error "ffmpeg error", fun _ => .ok 90000⟩

/-- A chat environment whose estimator raises while the backend works. -/
def chatEnvEstFail : ChatEnv :=
  ⟨fun _ _ => .error (.valueError "Modelo no soportado: gpt-5"),
   fun _ _ => .ok ⟨"ok"⟩⟩

/-- A pipeline environment whose transcription backend fails exactly on
the segment named "b" and succeeds elsewhere with text `"t" ++ path`. -/
def pipeEnvB : PipelineEnv :=
  ⟨fun _ => true, fun p => .ok p, fun _ => .ok 1, fun _ _ => .ok [],
   fun s _ => if s = "b" then .error (.openAIError "quota") else .ok ("t" ++ s)⟩

/-- A pipeline environment whose transcription backend always fails. -/
def pipeEnvFail : PipelineEnv :=
  ⟨fun _ => true, fun p => .ok p, fun _ => .ok 5, fun _ _ => .ok [],
   fun _ _ => .error (.openAIError "network down")⟩

/-! ## Lemmas and claim theorems -/

/-- Every pricing entry of the table is nonnegative in both components. -/
lemma MODEL_PRICES_nonneg (model : String) (p : Price)
    (h : MODEL_PRICES model = some p) : 0 ≤ p.input ∧ 0 ≤ p.output := by
  unfold MODEL_PRICES at h
  split at h
  · cases h; constructor <;> norm_num
  · split at h
    · cases h; constructor <;> norm_num
    · cases h

/-- Claim C6: calling the cost estimator with a model that has no
pricing-table entry raises the unsupported-model `ValueError` and never
returns a value: for every tokenizer environment, input text and output
ceiling, if the model is absent from `MODEL_PRICES` then
`calculate_token_cost` is exactly that error and is `.ok` for no cost. -/
theorem calculate_token_cost_unknown_model_rejected (env : TiktokenEnv)
    (text : String) (n : Nat) (model : String)
    (h : MODEL_PRICES model = none) :
    calculate_token_cost env text n model =
      .error (.valueError (unsupportedModelMessage model)) ∧
    ∀ q : ℚ, calculate_token_cost env text n model ≠ .ok q := by
  unfold calculate_token_cost
  rw [h]
  exact ⟨rfl, fun q hq => by cases hq⟩

/-- Witness for C6 at the concrete model name of the spec. -/
theorem calculate_token_cost_unknown_model_rejected_witness :
    calculate_token_cost emptyTokEnv "texto" 100 "not-a-real-model" =
      .error (.valueError (unsupportedModelMessage "not-a-real-model")) ∧
    ∀ q : ℚ, calculate_token_cost emptyTokEnv "texto" 100 "not-a-real-model" ≠ .ok q :=
  calculate_token_cost_unknown_model_rejected emptyTokEnv "texto" 100
    "not-a-real-model" (by decide)

/-- Counterexample to claim C7 as stated: for the fixed supported model
`gpt-3.5-turbo`, the text "a b c" (5 characters, 3 tokens) is shorter than
"abcdef" (6 characters, 1 token) yet its estimated cost is strictly
larger, so the estimate is not non-decreasing in the character length of
the input text. -/
theorem calculate_token_cost_not_monotone_in_text_length :
    ("a b c").length ≤ ("abcdef").length ∧
    calculate_token_cost wordTokEnv "a b c" 0 "gpt-3.5-turbo" =
      .ok (9 / 2000000) ∧
    calculate_token_cost wordTokEnv "abcdef" 0 "gpt-3.5-turbo" =
      .ok (3 / 2000000) ∧
    (3 / 2000000 : ℚ) < 9 / 2000000 := by
  have hp : MODEL_PRICES "gpt-3.5-turbo" = some ⟨15/10000, 2/1000⟩ := by
    unfold MODEL_PRICES
    rw [if_neg (by decide), if_pos rfl]
  have h1 : get_token_count wordTokEnv "a b c" "gpt-3.5-turbo" = .ok 3 := rfl
  have h2 : get_token_count wordTokEnv "abcdef" "gpt-3.5-turbo" = .ok 1 := rfl
  refine ⟨by decide, ?_, ?_, by norm_num⟩ <;>
  · unfold calculate_token_cost
    rw [hp]
    first
      | (rw [h1]; norm_num)
      | (rw [h2]; norm_num)

/-- Claim C7 (amended): for every tokenizer environment and fixed supported
model whose tokenizer is registered, the estimated cost is non-decreasing
in the token count of the input text and in `max_output_tokens`. -/
theorem calculate_token_cost_monotone (env : TiktokenEnv) (model : String)
    (prices : Price) (hp : MODEL_PRICES model = some prices)
    (enc : String → List Nat) (he : env.encoding_for_model model = some enc)
    (s t : String) (n₁ n₂ : Nat)
    (htok : (enc s).length ≤ (enc t).length) (hn : n₁ ≤ n₂) :
    ∃ c₁ c₂ : ℚ,
      calculate_token_cost env s n₁ model = .ok c₁ ∧
      calculate_token_cost env t n₂ model = .ok c₂ ∧ c₁ ≤ c₂ := by
  obtain ⟨hin, hout⟩ := MODEL_PRICES_nonneg model prices hp
  have hs : calculate_token_cost env s n₁ model =
      .ok (((enc s).length : ℚ) / 1000 * prices.input +
           (n₁ : ℚ) / 1000 * prices.output) := by
    unfold calculate_token_cost get_token_count
    rw [hp, he]
  have ht : calculate_token_cost env t n₂ model =
      .ok (((enc t).length : ℚ) / 1000 * prices.input +
           (n₂ : ℚ) / 1000 * prices.output) := by
    unfold calculate_token_cost get_token_count
    rw [hp, he]
  refine ⟨_, _, hs, ht, ?_⟩
  have h1 : ((enc s).length : ℚ) ≤ ((enc t).length : ℚ) := by exact_mod_cast htok
  have h2 : (n₁ : ℚ) ≤ (n₂ : ℚ) := by exact_mod_cast hn
  gcongr

/-- Witness for the amended C7: under the word tokenizer, growing the text
by one word and raising the output ceiling does not decrease the cost. -/
theorem calculate_token_cost_monotone_witness :
    ∃ c₁ c₂ : ℚ,
      calculate_token_cost wordTokEnv "hola mundo" 10 "gpt-3.5-turbo" = .ok c₁ ∧
      calculate_token_cost wordTokEnv "hola mundo otra vez" 20 "gpt-3.5-turbo" = .ok c₂ ∧
      c₁ ≤ c₂ :=
  calculate_token_cost_monotone wordTokEnv "gpt-3.5-turbo" ⟨15/10000, 2/1000⟩
    (by unfold MODEL_PRICES; rw [if_neg (by decide), if_pos rfl])
    (fun s => 0 :: (s.data.filter (fun c => c = ' ')).map (fun _ => 0))
    rfl "hola mundo" "hola mundo otra vez" 10 20 (by decide) (by decide)

/-- Closed form of the Python range for a positive step: the multiples of
`step` offset by `start`, one for each of the `ceil((stop-start)/step)`
windows. -/
lemma pyRange_eq_map (start stop step : Nat) (hs : 0 < step) :
    pyRange start stop step =
      (List.range ((stop - start + step - 1) / step)).map
        (fun k => start + k * step) := by
  rw [pyRange]
  split
  · rename_i h
    rw [pyRange_eq_map (start + step) stop step hs]
    have hN : (stop - start + step - 1) / step
        = (stop - (start + step) + step - 1) / step + 1 := by
      rcases Nat.le_total (stop - start) step with hle | hgt
      · have h1 : stop - (start + step) = 0 := by omega
        have h2 : (step - 1) / step = 0 := Nat.div_eq_of_lt (by omega)
        have h3 : stop - start + step - 1 = step * 1 + (stop - start - 1) := by
          omega
        have h4 : 0 + step - 1 = step - 1 := by omega
        rw [h1, h3, Nat.mul_add_div hs,
          Nat.div_eq_of_lt (show stop - start - 1 < step by omega), h4, h2]
      · have h3 : stop - start + step - 1
            = (stop - (start + step) + step - 1) + step := by omega
        rw [h3, Nat.add_div_right _ hs]
    rw [hN, List.range_succ_eq_map, List.map_cons, List.map_map]
    refine congrArg₂ _ (by omega) ?_
    apply List.map_congr_left
    intro k _
    simp [Function.comp]
    ring
  · rename_i h
    have h0 : (stop - start + step - 1) / step = 0 := Nat.div_eq_of_lt (by omega)
    rw [h0]
    simp
termination_by stop - start
decreasing_by omega

/-- The window lengths `min step (stop - i)` over a Python range cover the
interval from `start` to `stop` exactly. -/
lemma pyRange_sum (start stop step : Nat) (hs : 0 < step) :
    ((pyRange start stop step).map (fun i => min step (stop - i))).sum
      = stop - start := by
  rw [pyRange]
  split
  · rename_i h
    rw [List.map_cons, List.sum_cons, pyRange_sum (start + step) stop step hs]
    omega
  · rename_i h
    simp
    omega
termination_by stop - start
decreasing_by omega

/-- Claim C2: when the loaded audio is strictly longer than the window
`max_length_minutes` (in ms), `split_audio` succeeds and produces exactly
`ceil(duration_ms / window_ms)` exported segment files; the returned paths
are the exported paths in order, the k-th (0-based) exported file is named
with the 1-based index `k+1` and holds the slice of length
`min window (duration - k*window)` — the full window for every segment but
possibly the last — and the exported lengths sum to the full duration. -/
theorem split_audio_partitions (env : AudioEnv) (audio_path outputDir : String)
    (audioLen maxMinutes : Nat)
    (hex : env.pathExists audio_path = true)
    (hload : env.load audio_path = .ok audioLen)
    (hpos : 0 < maxMinutes)
    (hlong : maxMinutes * 60 * 1000 < audioLen) :
    ∃ r : SplitResult,
      split_audio env audio_path outputDir maxMinutes = .ok r ∧
      r.segments = r.exported.map Prod.fst ∧
      r.exported.length
        = (audioLen + maxMinutes * 60 * 1000 - 1) / (maxMinutes * 60 * 1000) ∧
      (∀ k, k < r.exported.length →
        r.exported[k]? = some
          (segmentPath outputDir (pathStem audio_path) (k + 1),
           min (maxMinutes * 60 * 1000)
             (audioLen - k * (maxMinutes * 60 * 1000)))) ∧
      (∀ k, k + 1 < r.exported.length →
        r.exported[k]?.map Prod.snd = some (maxMinutes * 60 * 1000)) ∧
      (r.exported.map Prod.snd).sum = audioLen := by
  have hms : 0 < maxMinutes * 60 * 1000 := by omega
  refine ⟨⟨((pyRange 0 audioLen (maxMinutes * 60 * 1000)).enum.map
    (fun p => (segmentPath outputDir (pathStem audio_path) (p.1 + 1),
               min (maxMinutes * 60 * 1000) (audioLen - p.2)))).map Prod.fst,
    (pyRange 0 audioLen (maxMinutes * 60 * 1000)).enum.map
      (fun p => (segmentPath outputDir (pathStem audio_path) (p.1 + 1),
                 min (maxMinutes * 60 * 1000) (audioLen - p.2)))⟩,
    ?_, rfl, ?_, ?_, ?_, ?_⟩
  · simp only [split_audio, hex, hload, Bool.true_eq_false, if_false]
    rw [if_neg (show ¬ audioLen ≤ maxMinutes * 60 * 1000 by omega),
      if_neg (show ¬ maxMinutes * 60 * 1000 = 0 by omega)]
  · rw [List.length_map, List.enum_length,
      pyRange_eq_map 0 audioLen (maxMinutes * 60 * 1000) hms,
      List.length_map, List.length_range, Nat.sub_zero]
  · intro k hk
    rw [List.length_map, List.enum_length,
      pyRange_eq_map 0 audioLen (maxMinutes * 60 * 1000) hms,
      List.length_map, List.length_range, Nat.sub_zero] at hk
    rw [List.getElem?_map, List.getElem?_enum,
      pyRange_eq_map 0 audioLen (maxMinutes * 60 * 1000) hms, Nat.sub_zero,
      List.getElem?_map, List.getElem?_range hk]
    simp
  · intro k hk
    rw [List.length_map, List.enum_length,
      pyRange_eq_map 0 audioLen (maxMinutes * 60 * 1000) hms,
      List.length_map, List.length_range, Nat.sub_zero] at hk
    rw [List.getElem?_map, List.getElem?_enum,
      pyRange_eq_map 0 audioLen (maxMinutes * 60 * 1000) hms, Nat.sub_zero,
      List.getElem?_map, List.getElem?_range (show k < _ by omega)]
    have hk2 : (k + 2) * (maxMinutes * 60 * 1000)
        ≤ audioLen + maxMinutes * 60 * 1000 - 1 :=
      (Nat.le_div_iff_mul_le hms).mp (by omega)
    have hdist : (k + 2) * (maxMinutes * 60 * 1000)
        = k * (maxMinutes * 60 * 1000) + 2 * (maxMinutes * 60 * 1000) := by
      ring
    have hmin : min (maxMinutes * 60 * 1000)
        (audioLen - k * (maxMinutes * 60 * 1000)) = maxMinutes * 60 * 1000 := by
      omega
    simp [hmin]
  · have hsnd : ((pyRange 0 audioLen (maxMinutes * 60 * 1000)).enum.map
        (fun p => (segmentPath outputDir (pathStem audio_path) (p.1 + 1),
                   min (maxMinutes * 60 * 1000) (audioLen - p.2)))).map Prod.snd
        = (pyRange 0 audioLen (maxMinutes * 60 * 1000)).map
            (fun i => min (maxMinutes * 60 * 1000) (audioLen - i)) := by
      rw [List.map_map]
      have h1 : (Prod.snd ∘ fun p : Nat × Nat =>
          (segmentPath outputDir (pathStem audio_path) (p.1 + 1),
           min (maxMinutes * 60 * 1000) (audioLen - p.2)))
          = (fun i => min (maxMinutes * 60 * 1000) (audioLen - i)) ∘ Prod.snd :=
        rfl
      rw [h1, ← List.map_map, List.enum_map_snd]
    rw [hsnd, pyRange_sum 0 audioLen (maxMinutes * 60 * 1000) hms, Nat.sub_zero]

/-- Witness for C2 at the spec's example: a 125-minute asset with a
10-minute window yields 13 segments, the 13th lasting 5 minutes
(300 000 ms), and the exported lengths sum to the 7 500 000 ms source. -/
theorem split_audio_partitions_witness :
    ∃ r : SplitResult,
      split_audio audioEnv125 "meeting.mp3" "output" 10 = .ok r ∧
      r.exported.length = 13 ∧
      r.exported[12]?.map Prod.snd = some 300000 ∧
      r.exported[12]?.map Prod.fst
        = some (segmentPath "output" (pathStem "meeting.mp3") 13) ∧
      (r.exported.map Prod.snd).sum = 7500000 := by
  obtain ⟨r, h1, _h2, h3, h4, _h5, h6⟩ :=
    split_audio_partitions audioEnv125 "meeting.mp3" "output" 7500000 10
      rfl rfl (by norm_num) (by norm_num)
  have hlen : r.exported.length = 13 := by rw [h3]
  have h12 := h4 12 (by omega)
  refine ⟨r, h1, hlen, ?_, ?_, h6⟩
  · rw [h12]
    rfl
  · rw [h12]
    rfl

/-- Claim C3: when the loaded audio is no longer than the window,
`split_audio` returns the single-element list holding the original path
and exports nothing. -/
theorem split_audio_fast_path (env : AudioEnv) (audio_path outputDir : String)
    (audioLen maxMinutes : Nat)
    (hex : env.pathExists audio_path = true)
    (hload : env.load audio_path = .ok audioLen)
    (hshort : audioLen ≤ maxMinutes * 60 * 1000) :
    ∃ r : SplitResult,
      split_audio env audio_path outputDir maxMinutes = .ok r ∧
      r.segments = [audio_path] ∧ r.exported = [] := by
  unfold split_audio
  rw [hex, hload]
  simp only [Bool.true_eq_false, if_false]
  rw [if_pos hshort]
  exact ⟨⟨[audio_path], []⟩, rfl, rfl, rfl⟩

/-- Witness for C3: a 5-minute asset with a 10-minute window is returned
unchanged with no exports. -/
theorem split_audio_fast_path_witness :
    ∃ r : SplitResult,
      split_audio audioEnvShort "meeting.mp3" "output" 10 = .ok r ∧
      r.segments = ["meeting.mp3"] ∧ r.exported = [] :=
  split_audio_fast_path audioEnvShort "meeting.mp3" "output" 300000 10
    rfl rfl (by norm_num)

/-- Claim C5: for an existing asset the duration prober uses the primary
metadata query and returns seconds/60 on success; on a primary error it
falls back to decoding and returns milliseconds/(1000*60); it fails only
when both strategies fail, wrapping the fallback's message. -/
theorem get_audio_duration_strategies (env : DurationEnv) (p : String)
    (hex : env.pathExists p = true) :
    (∀ s : ℚ, env.probe p = .ok s → get_audio_duration env p = .ok (s / 60)) ∧
    (∀ (err : String) (ms : Nat), env.probe p = .error err →
      env.fromFile p = .ok ms →
      get_audio_duration env p = .ok ((ms : ℚ) / (1000 * 60))) ∧
    (∀ (err msg : String), env.probe p = .error err →
      env.fromFile p = .error msg →
      get_audio_duration env p
        = .error (.valueError
            ("Error al obtener la duración del audio: " ++ msg))) := by
  refine ⟨?_, ?_, ?_⟩
  · intro s hprobe
    simp [get_audio_duration, hex, hprobe]
  · intro err ms hprobe hfile
    simp [get_audio_duration, hex, hprobe, hfile]
  · intro err msg hprobe hfile
    simp [get_audio_duration, hex, hprobe, hfile]

/-- Witness for C5: with the probe failing and the decoder reading a
90 000 ms asset, the prober falls back and returns exactly 1.5 minutes —
a non-truncated rational. -/
theorem get_audio_duration_strategies_witness :
    get_audio_duration durEnvFallback "meeting.mp3"
      = .ok ((90000 : ℚ) / (1000 * 60)) ∧
    ((90000 : ℚ) / (1000 * 60)) = 3 / 2 :=
  ⟨(get_audio_duration_strategies durEnvFallback "meeting.mp3" rfl).2.1
      "ffmpeg error" 90000 rfl rfl,
   by norm_num⟩

/-- Counterexample to claim C4 as stated: with an estimator that raises
and a healthy chat backend, `chat_completion` returns the wrapped error
and the `create` backend call is never made — an estimation failure does
prevent the request from being dispatched. -/
theorem chat_completion_estimation_failure_blocks_dispatch :
    chat_completion chatEnvEstFail "Resume esto" none 4000
      = (.error (.openAIError
          "Error en la generación de texto: Modelo no soportado: gpt-5"),
         [.estimate]) ∧
    LlmEvent.create ∉ (chat_completion chatEnvEstFail "Resume esto" none 4000).2 := by
  constructor
  · rfl
  · decide

/-- Claim C4 (amended): whenever the pre-call token/cost estimation fails,
`chat_completion` wraps that exception as an `OpenAIError` and raises it,
and the chat-completion backend call is not dispatched. -/
theorem chat_completion_estimation_failure_aborts (env : ChatEnv)
    (prompt : String) (sys : Option String) (max_tokens : Nat) (e : PyError)
    (hest : env.estimate prompt max_tokens = .error e) :
    chat_completion env prompt sys max_tokens
      = (.error (.openAIError
          ("Error en la generación de texto: " ++ pyErrStr e)),
         [.estimate]) ∧
    LlmEvent.create ∉ (chat_completion env prompt sys max_tokens).2 := by
  have h : chat_completion env prompt sys max_tokens
      = (.error (.openAIError
          ("Error en la generación de texto: " ++ pyErrStr e)),
         [.estimate]) := by
    simp [chat_completion, hest]
  refine ⟨h, ?_⟩
  rw [h]
  simp

/-- Witness for the amended C4 at a concrete failing estimator. -/
theorem chat_completion_estimation_failure_aborts_witness :
    chat_completion chatEnvEstFail "hola" (some "sys") 100
      = (.error (.openAIError
          ("Error en la generación de texto: "
            ++ pyErrStr (.valueError "Modelo no soportado: gpt-5"))),
         [.estimate]) ∧
    LlmEvent.create ∉ (chat_completion chatEnvEstFail "hola" (some "sys") 100).2 :=
  chat_completion_estimation_failure_aborts chatEnvEstFail "hola" (some "sys")
    100 (.valueError "Modelo no soportado: gpt-5") rfl

/-- Claim C1: the segment loop yields exactly one fragment per segment in
the segments' order — the backend's text where the backend succeeds and
the empty string where it raises (later segments are still attempted,
since every position gets a fragment) — and the returned transcript is the
fragments joined with newline separators in index order. -/
theorem transcribe_segments_ordered (env : PipelineEnv)
    (language : Option String) (segments : List String) :
    (segments.map (fragmentOf env language)).length = segments.length ∧
    (∀ (i : Nat) (hi : i < segments.length) (e : PyError),
      env.whisper segments[i] language = .error e →
      (segments.map (fragmentOf env language))[i]? = some "") ∧
    (∀ (i : Nat) (hi : i < segments.length) (t : String),
      env.whisper segments[i] language = .ok t →
      (segments.map (fragmentOf env language))[i]? = some t) ∧
    _transcribe_segments env segments language
      = String.intercalate "\n" (segments.map (fragmentOf env language)) := by
  refine ⟨List.length_map .., ?_, ?_, rfl⟩
  · intro i hi e hw
    rw [List.getElem?_map, List.getElem?_eq_getElem hi]
    simp [fragmentOf, hw]
  · intro i hi t hw
    rw [List.getElem?_map, List.getElem?_eq_getElem hi]
    simp [fragmentOf, hw]

/-- Witness for C1 at the spec's end-to-end scenario: three segments whose
second backend call fails produce the fragments `["ta", "", "tc"]` and the
transcript `"ta\n\ntc"` — position 2 empty, positions preserved. -/
theorem transcribe_segments_ordered_witness :
    (["a", "b", "c"].map (fragmentOf pipeEnvB none))[1]? = some "" ∧
    _transcribe_segments pipeEnvB ["a", "b", "c"] none = "ta\n\ntc" :=
  ⟨(transcribe_segments_ordered pipeEnvB none ["a", "b", "c"]).2.1 1
      (by norm_num) (.openAIError "quota") rfl,
   by decide⟩

/-- The extension allow-lists are disjoint: a path classified as audio is
not classified as video. -/
lemma audio_not_video (p : String) (h : is_audio_file p = true) :
    is_video_file p = false := by
  unfold is_audio_file at h
  unfold is_video_file
  have hmem : lowerString (pathSuffix p) ∈ SUPPORTED_AUDIO_EXTENSIONS := by
    simpa using h
  simp only [SUPPORTED_AUDIO_EXTENSIONS, List.mem_cons,
    List.not_mem_nil, or_false] at hmem
  rcases hmem with h1 | h1 | h1 | h1 | h1 | h1 <;> rw [h1] <;> decide

/-- Claim C9: on the single-asset path (duration within the configured
maximum) a transcription backend error propagates to the caller — the
run aborts with that error after the probe and the one backend call, and
no transcript (in particular no empty-string transcript) is returned. -/
theorem transcribe_audio_single_asset_error_propagates (env : PipelineEnv)
    (maxLen : Nat) (p : String) (language : Option String) (d : ℚ)
    (e : PyError)
    (hex : env.pathExists p = true)
    (haud : is_audio_file p = true)
    (hdur : env.duration p = .ok d)
    (hshort : d ≤ (maxLen : ℚ))
    (hw : env.whisper p language = .error e) :
    transcribe_audio env maxLen p language
      = (.error e, [.probe p, .whisper p]) ∧
    ∀ s : String, (transcribe_audio env maxLen p language).1 ≠ .ok s := by
  have hvid := audio_not_video p haud
  have h : transcribe_audio env maxLen p language
      = (.error e, [.probe p, .whisper p]) := by
    simp only [transcribe_audio, hex, haud, hvid, hdur, hw,
      Bool.true_eq_false, if_false, Bool.true_or, Bool.not_true,
      Bool.false_eq_true]
    rw [if_neg (not_lt.mpr hshort)]
    simp
  refine ⟨h, ?_⟩
  intro s
  rw [h]
  simp

/-- Witness for C9: a 5-minute asset whose only backend call fails makes
the run abort with that error instead of returning an empty transcript. -/
theorem transcribe_audio_single_asset_error_propagates_witness :
    transcribe_audio pipeEnvFail 10 "audio.mp3" none
      = (.error (.openAIError "network down"),
         [.probe "audio.mp3", .whisper "audio.mp3"]) ∧
    ∀ s : String, (transcribe_audio pipeEnvFail 10 "audio.mp3" none).1 ≠ .ok s :=
  transcribe_audio_single_asset_error_propagates pipeEnvFail 10 "audio.mp3"
    none 5 (.openAIError "network down") rfl (by decide) rfl (by norm_num) rfl

/-- `lowerChar` maps a character to `'.'` only from `'.'` itself. -/
lemma lowerChar_dot (c : Char) : lowerChar c = '.' ↔ c = '.' := by
  unfold lowerChar
  cases hf : lowerPairs.find? (fun q => q.1 = c) with
  | none => simp
  | some q =>
    have hq1 : q.1 = c := by simpa using List.find?_some hf
    have hqmem : q ∈ lowerPairs := List.mem_of_find?_eq_some hf
    have hall : ∀ r ∈ lowerPairs, r.2 ≠ '.' ∧ r.1 ≠ '.' := by decide
    simp only [Option.map_some', Option.getD_some]
    constructor
    · intro h
      exact absurd h (hall q hqmem).1
    · intro h
      rw [h] at hq1
      exact absurd hq1 (hall q hqmem).2

/-- `lowerChar` maps a character to `'/'` only from `'/'` itself. -/
lemma lowerChar_slash (c : Char) : lowerChar c = '/' ↔ c = '/' := by
  unfold lowerChar
  cases hf : lowerPairs.find? (fun q => q.1 = c) with
  | none => simp
  | some q =>
    have hq1 : q.1 = c := by simpa using List.find?_some hf
    have hqmem : q ∈ lowerPairs := List.mem_of_find?_eq_some hf
    have hall : ∀ r ∈ lowerPairs, r.2 ≠ '/' ∧ r.1 ≠ '/' := by decide
    simp only [Option.map_some', Option.getD_some]
    constructor
    · intro h
      exact absurd h (hall q hqmem).1
    · intro h
      rw [h] at hq1
      exact absurd hq1 (hall q hqmem).2

/-- Lowercasing is idempotent character by character. -/
lemma lowerChar_idem (c : Char) : lowerChar (lowerChar c) = lowerChar c := by
  cases hf : lowerPairs.find? (fun q => q.1 = c) with
  | none =>
    have h1 : lowerChar c = c := by unfold lowerChar; rw [hf]; rfl
    rw [h1, h1]
  | some q =>
    have hqmem : q ∈ lowerPairs := List.mem_of_find?_eq_some hf
    have h1 : lowerChar c = q.2 := by unfold lowerChar; rw [hf]; rfl
    have hall : ∀ a ∈ lowerPairs, ∀ b ∈ lowerPairs, b.1 ≠ a.2 := by decide
    have h2 : lowerPairs.find? (fun r => r.1 = q.2) = none := by
      apply List.find?_eq_none.mpr
      intro x hx
      simpa using hall q hqmem x hx
    have h3 : lowerChar q.2 = q.2 := by unfold lowerChar; rw [h2]; rfl
    rw [h1, h3]

/-- The slash-dropping predicate is invariant under lowercasing. -/
lemma slash_pred_comp :
    ((fun c => decide (c = '/')) ∘ lowerChar) = fun c : Char => decide (c = '/') := by
  funext c
  simp only [Function.comp]
  exact decide_eq_decide.mpr (lowerChar_slash c)

/-- The not-a-dot predicate is invariant under lowercasing. -/
lemma dot_pred_comp :
    ((fun c => decide (¬ c = '.')) ∘ lowerChar) = fun c : Char => decide (¬ c = '.') := by
  funext c
  simp only [Function.comp]
  exact decide_eq_decide.mpr (not_congr (lowerChar_dot c))

/-- Extracting the last path component commutes with lowercasing. -/
lemma afterLastSlash_map (l : List Char) :
    afterLastSlash (l.map lowerChar) = (afterLastSlash l).map lowerChar := by
  unfold afterLastSlash
  suffices h : ∀ acc : List Char,
      (l.map lowerChar).foldl
        (fun acc c => if c = '/' then [] else acc ++ [c]) (acc.map lowerChar)
      = (l.foldl (fun acc c => if c = '/' then [] else acc ++ [c]) acc).map
          lowerChar from h []
  intro acc
  induction l generalizing acc with
  | nil => rfl
  | cons c cs ih =>
    simp only [List.map_cons, List.foldl_cons]
    have hstep : (if lowerChar c = '/' then [] else acc.map lowerChar ++ [lowerChar c])
        = (if c = '/' then [] else acc ++ [c]).map lowerChar := by
      by_cases hc : c = '/'
      · rw [if_pos hc, if_pos ((lowerChar_slash c).mpr hc)]
        rfl
      · rw [if_neg hc, if_neg (fun h => hc ((lowerChar_slash c).mp h)),
          List.map_append]
        rfl
    rw [hstep]
    exact ih _

/-- `Path.name` extraction commutes with lowercasing. -/
lemma pathNameChars_map (l : List Char) :
    pathNameChars (l.map lowerChar) = (pathNameChars l).map lowerChar := by
  unfold pathNameChars stripTrailingSlashes
  rw [← List.map_reverse, List.dropWhile_map, slash_pred_comp,
    ← List.map_reverse, afterLastSlash_map]

/-- `Path.suffix` extraction commutes with lowercasing. -/
lemma pathSuffixChars_map (name : List Char) :
    pathSuffixChars (name.map lowerChar) = (pathSuffixChars name).map lowerChar := by
  have hmem : ('.' ∈ name.map lowerChar) ↔ ('.' ∈ name) := by
    constructor
    · intro h
      obtain ⟨c, hc, hfc⟩ := List.mem_map.mp h
      rwa [(lowerChar_dot c).mp hfc] at hc
    · intro h
      exact List.mem_map.mpr ⟨'.', h, by decide⟩
  have hafter : ((name.map lowerChar).reverse.takeWhile (fun c => c ≠ '.')).reverse
      = ((name.reverse.takeWhile (fun c => c ≠ '.')).reverse).map lowerChar := by
    rw [← List.map_reverse, List.takeWhile_map, dot_pred_comp, ← List.map_reverse]
  unfold pathSuffixChars
  by_cases h : '.' ∈ name
  · rw [if_pos h, if_pos (hmem.mpr h), hafter, List.length_map, List.length_map]
    split_ifs with h1 h2
    · rfl
    · rfl
    · rfl
  · rw [if_neg h, if_neg (fun hx => h (hmem.mp hx))]
    rfl

/-- Claim C10: file-type classification is case-insensitive in the
extension — classifying the lowercased path agrees with classifying the
path for both predicates — an upper-case `.MP3` path is audio, a mixed
case `.MoV` path is video, and a path with an empty suffix is neither. -/
theorem file_type_classification_case_insensitive :
    (∀ p : String, is_audio_file (lowerString p) = is_audio_file p ∧
                   is_video_file (lowerString p) = is_video_file p) ∧
    is_audio_file "meeting.MP3" = true ∧
    is_video_file "clip.MoV" = true ∧
    (∀ p : String, pathSuffix p = "" →
      is_audio_file p = false ∧ is_video_file p = false) := by
  refine ⟨?_, by decide, by decide, ?_⟩
  · intro p
    have hsuffix : pathSuffix (lowerString p) = lowerString (pathSuffix p) := by
      unfold pathSuffix lowerString
      rw [show (String.mk (p.data.map lowerChar)).data = p.data.map lowerChar
          from rfl,
        pathNameChars_map, pathSuffixChars_map]
    have hidem : lowerString (lowerString (pathSuffix p))
        = lowerString (pathSuffix p) := by
      unfold lowerString
      rw [show (String.mk ((pathSuffix p).data.map lowerChar)).data
          = (pathSuffix p).data.map lowerChar from rfl, List.map_map]
      rw [show lowerChar ∘ lowerChar = lowerChar from funext lowerChar_idem]
    constructor
    · unfold is_audio_file
      rw [hsuffix, hidem]
    · unfold is_video_file
      rw [hsuffix, hidem]
  · intro p hsuf
    have hempty : lowerString (pathSuffix p) = "" := by
      rw [hsuf]
      rfl
    unfold is_audio_file is_video_file
    rw [hempty]
    exact ⟨by decide, by decide⟩

/-- Witness for C10: "archivo" has no extension and is classified as
neither audio nor video. -/
theorem file_type_classification_case_insensitive_witness :
    pathSuffix "archivo" = "" ∧
    is_audio_file "archivo" = false ∧ is_video_file "archivo" = false :=
  ⟨by decide,
   (file_type_classification_case_insensitive.2.2.2 "archivo" (by decide)).1,
   (file_type_classification_case_insensitive.2.2.2 "archivo" (by decide)).2⟩

/-- Claim C8: an existing path whose extension is in neither allow-list is
rejected by the classification step with the `ValueError` naming the
supported extension sets, and no conversion, probe, split or transcription
backend call is made (the call trace is empty). -/
theorem transcribe_audio_unsupported_format_rejected (env : PipelineEnv)
    (maxLen : Nat) (p : String) (language : Option String)
    (hex : env.pathExists p = true)
    (haud : is_audio_file p = false)
    (hvid : is_video_file p = false) :
    transcribe_audio env maxLen p language
      = (.error (.valueError unsupportedFormatMessage), []) := by
  simp [transcribe_audio, hex, haud, hvid]

/-- Witness for C8 at the spec's `.xyz` example. -/
theorem transcribe_audio_unsupported_format_rejected_witness :
    transcribe_audio pipeEnvB 10 "recording.xyz" none
      = (.error (.valueError unsupportedFormatMessage), []) :=
  transcribe_audio_unsupported_format_rejected pipeEnvB 10 "recording.xyz"
    none rfl (by decide) (by decide)

end MeetingAssistant
